import Mathlib

/-!
Verification development for the krishi-mitra repository.

The TypeScript/JavaScript sources are shallowly embedded in Lean:
JavaScript numbers are modelled as rationals (exact arithmetic), strings as
`String` with all manipulation carried out on the underlying character
lists, nullable values as `Option`, and JSX/state updates as pure functions
returning the relevant state.  Line numbers in the comments refer to the
repository sources.
-/

/- ===================================================================
   frontend/src/components/RiskDashboard.tsx
   =================================================================== -/

/-- Weather payload used by the dashboard (RiskDashboard.tsx lines 190-196).
Every field may be missing; the surrounding value may itself be null. -/
structure Weather where
  temperature : Option ℚ
  humidity : Option ℚ
  wind_speed : Option ℚ
  rain_1h : Option ℚ
deriving DecidableEq

/-- The droughtTolerance strings occurring in cropRiskProfiles
(RiskDashboard.tsx lines 29-93); only these four values appear, so the
JavaScript droughtMultiplier lookup with its dead `or 1.0` default is total
on this type. -/
inductive DroughtTolerance
  | very_low
  | low
  | medium
  | high
deriving DecidableEq

/-- One entry of cropRiskProfiles (RiskDashboard.tsx lines 30-38 et seq.). -/
structure CropRiskProfile where
  optimalTempMin : ℚ
  optimalTempMax : ℚ
  optimalHumidityMin : ℚ
  optimalHumidityMax : ℚ
  pestRiskHumidity : ℚ
  frostRisk : ℚ
  heatStress : ℚ
  droughtTolerance : DroughtTolerance
  fungalRiskHumidity : ℚ
  fungalRiskTemp : ℚ
deriving DecidableEq

/-- RiskDashboard.tsx lines 30-38. -/
def wheatProfile : CropRiskProfile :=
  ⟨15, 25, 40, 70, 75, 5, 35, .medium, 80, 20⟩

/-- RiskDashboard.tsx lines 39-47. -/
def maizeProfile : CropRiskProfile :=
  ⟨18, 30, 50, 75, 70, 0, 35, .low, 75, 25⟩

/-- RiskDashboard.tsx lines 48-56. -/
def riceProfile : CropRiskProfile :=
  ⟨20, 35, 70, 90, 85, 10, 40, .very_low, 90, 28⟩

/-- RiskDashboard.tsx lines 57-65. -/
def soybeanProfile : CropRiskProfile :=
  ⟨20, 30, 60, 80, 75, 2, 32, .medium, 85, 22⟩

/-- RiskDashboard.tsx lines 66-74. -/
def tomatoProfile : CropRiskProfile :=
  ⟨18, 28, 50, 70, 75, 5, 32, .low, 80, 15⟩

/-- RiskDashboard.tsx lines 75-83. -/
def mustardProfile : CropRiskProfile :=
  ⟨15, 25, 40, 65, 70, 0, 30, .medium, 75, 20⟩

/-- RiskDashboard.tsx lines 84-92. -/
def sugarcaneProfile : CropRiskProfile :=
  ⟨25, 35, 60, 85, 80, 8, 42, .low, 85, 30⟩

/-- cropRiskProfiles (RiskDashboard.tsx lines 29-93), as an association
list keyed by the normalized crop name. -/
def cropRiskProfiles : List (String × CropRiskProfile) :=
  [("wheat", wheatProfile), ("maize", maizeProfile), ("rice", riceProfile),
   ("soybean", soybeanProfile), ("tomato", tomatoProfile),
   ("mustard", mustardProfile), ("sugarcane", sugarcaneProfile)]

/-- Scan past the first close paren, returning the remainder after it, or
none when no close paren occurs. -/
def dropThroughClose : List Char → Option (List Char)
  | [] => none
  | c :: cs => if c = ')' then some cs else dropThroughClose cs

/-- Scan to the next line terminator (or the end).  JavaScript regex dot
does not match line terminators, so a greedy dot-star consumes exactly up
to here. -/
def dropToEol : List Char → List Char
  | [] => []
  | c :: cs => if c = '\n' ∨ c = '\r' then c :: cs else dropToEol cs

/-- One JavaScript replace of the first match of a regex of the shape
whitespace-star, open paren, non-close-paren-star, close paren, by the
empty string.  The first argument accumulates the already-scanned prefix in
reverse.  The leftmost match starts at the whitespace run immediately
preceding the first open paren that is followed by a close paren; when the
first open paren has no close paren after it, nothing matches. -/
def replaceParenMatch : List Char → List Char → List Char
  | acc, [] => acc.reverse
  | acc, c :: cs =>
    if c = '(' then
      match dropThroughClose cs with
      | some rest => (acc.dropWhile Char.isWhitespace).reverse ++ rest
      | none => acc.reverse ++ c :: cs
    else replaceParenMatch (c :: acc) cs

/-- One JavaScript replace of the first match of a regex of the shape
whitespace-star, slash, dot-star, by the empty string: everything from the
whitespace run preceding the first slash up to the end of that line is
removed. -/
def replaceSlashMatch : List Char → List Char → List Char
  | acc, [] => acc.reverse
  | acc, c :: cs =>
    if c = '/' then (acc.dropWhile Char.isWhitespace).reverse ++ dropToEol cs
    else replaceSlashMatch (c :: acc) cs

/-- String.prototype.trim: whitespace stripped from both ends. -/
def trimChars (l : List Char) : List Char :=
  ((l.dropWhile Char.isWhitespace).reverse.dropWhile Char.isWhitespace).reverse

/-- The crop-name normalization of RiskDashboard.tsx line 97: lowercase,
strip the first parenthesized group with its leading whitespace, strip
everything from the first slash with its leading whitespace, then trim.
(ASCII whitespace; the Unicode whitespace classes of JavaScript are not
modelled, no crop name uses them.) -/
def normalizeCropName (cropName : String) : String :=
  ⟨trimChars (replaceSlashMatch [] (replaceParenMatch [] (cropName.data.map Char.toLower)))⟩

/-- JavaScript Math.round: half-up rounding (toward positive infinity on
ties). -/
def jsRound (q : ℚ) : ℤ := ⌊q + 1 / 2⌋

/-- The defaulted temperature (RiskDashboard.tsx lines 102/108): null or a
missing field becomes 25. -/
def effTemperature (weather : Option Weather) : ℚ :=
  (weather.bind Weather.temperature).getD 25

/-- The defaulted humidity (RiskDashboard.tsx lines 103/109): default 60. -/
def effHumidity (weather : Option Weather) : ℚ :=
  (weather.bind Weather.humidity).getD 60

/-- The defaulted rainfall (RiskDashboard.tsx lines 104/110): default 0. -/
def effRain (weather : Option Weather) : ℚ :=
  (weather.bind Weather.rain_1h).getD 0

/-- Temperature stress contribution (RiskDashboard.tsx lines 114-127). -/
def tempStressRisk (p : CropRiskProfile) (temp : ℚ) : ℚ :=
  if temp < p.optimalTempMin then
    min 20 ((p.optimalTempMin - temp) * 2) + (if temp < p.frostRisk then 15 else 0)
  else if temp > p.optimalTempMax then
    min 25 ((temp - p.optimalTempMax) * 1.5) + (if temp > p.heatStress then 10 else 0)
  else 0

/-- Humidity stress contribution (RiskDashboard.tsx lines 129-136). -/
def humidityStressRisk (p : CropRiskProfile) (humidity : ℚ) : ℚ :=
  if humidity < p.optimalHumidityMin then
    min 15 ((p.optimalHumidityMin - humidity) * 0.3)
  else if humidity > p.optimalHumidityMax then
    min 20 ((humidity - p.optimalHumidityMax) * 0.4)
  else 0

/-- Pest and disease contribution (RiskDashboard.tsx lines 138-141). -/
def pestDiseaseRisk (p : CropRiskProfile) (humidity : ℚ) : ℚ :=
  if humidity > p.pestRiskHumidity then
    min 15 ((humidity - p.pestRiskHumidity) * 0.5)
  else 0

/-- Fungal disease contribution (RiskDashboard.tsx lines 143-146). -/
def fungalDiseaseRisk (p : CropRiskProfile) (humidity temp : ℚ) : ℚ :=
  if humidity > p.fungalRiskHumidity ∧ temp > p.fungalRiskTemp then
    min 20 ((humidity - p.fungalRiskHumidity) * 0.3 + (temp - p.fungalRiskTemp) * 0.5)
  else 0

/-- droughtMultiplier (RiskDashboard.tsx lines 150-155). -/
def droughtMultiplier : DroughtTolerance → ℚ
  | .very_low => 2.0
  | .low => 1.5
  | .medium => 1.0
  | .high => 0.5

/-- Drought/water stress contribution (RiskDashboard.tsx lines 148-157). -/
def droughtRisk (p : CropRiskProfile) (rain humidity : ℚ) : ℚ :=
  if rain = 0 ∧ humidity < 40 then
    min 15 ((40 - humidity) * 0.3 * droughtMultiplier p.droughtTolerance)
  else 0

/-- Heavy rain contribution (RiskDashboard.tsx lines 159-162). -/
def heavyRainRisk (rain : ℚ) : ℚ :=
  if rain > 10 then min 10 (rain * 0.5) else 0

/-- The accumulated riskScore of the profile branch (RiskDashboard.tsx
lines 112-162), the sum of the six contributions in source order. -/
def profileRiskScore (p : CropRiskProfile) (temp humidity rain : ℚ) : ℚ :=
  tempStressRisk p temp + humidityStressRisk p humidity +
    pestDiseaseRisk p humidity + fungalDiseaseRisk p humidity temp +
    droughtRisk p rain humidity + heavyRainRisk rain

/-- The generic fallback computation for unknown crops (RiskDashboard.tsx
line 105), exactly as written in the source. -/
def genericRisk (temp humidity rain : ℚ) : ℚ :=
  min 100 (max 0 ((humidity - 40) + (if temp > 32 then (temp - 32) * 2 else 0) +
    (if rain > 5 then 20 else 0)))

/-- calculateCropRisk (RiskDashboard.tsx lines 96-165). -/
def calculateCropRisk (cropName : String) (weather : Option Weather) : ℚ :=
  match cropRiskProfiles.lookup (normalizeCropName cropName) with
  | none =>
      genericRisk (effTemperature weather) (effHumidity weather) (effRain weather)
  | some profile =>
      ((min 100 (max 0 (jsRound (profileRiskScore profile (effTemperature weather)
        (effHumidity weather) (effRain weather)))) : ℤ) : ℚ)

/-- The generic formula in the algebraic form the specification claims:
min of 100 and max of 0 and humidity minus 40, plus twice the positive part
of temp minus 32, plus 20 when rain exceeds 5. -/
def specGenericRisk (temp humidity rain : ℚ) : ℚ :=
  min 100 (max 0 ((humidity - 40) + 2 * max 0 (temp - 32) +
    (if rain > 5 then 20 else 0)))

/-- Labels of the threat names pushed by the crops useMemo
(RiskDashboard.tsx lines 277-332); each constructor stands for the
corresponding translation key under risk_dashboard.threats. -/
inductive ThreatLabel
  | frost_damage
  | cold_stress
  | heat_stress
  | temperature_stress
  | pest_disease
  | fungal_disease
  | drought_stress
  | weather_stress
deriving DecidableEq

/-- The probability tiers, standing for the translation keys under
risk_dashboard.probability. -/
inductive ProbabilityTier
  | low
  | medium
  | high
deriving DecidableEq

/-- One element of the threats array (RiskDashboard.tsx lines 283-331);
the display-only due string is not modelled. -/
structure Threat where
  name : ThreatLabel
  probability : ProbabilityTier
deriving DecidableEq

/-- The condition-specific threats pushed for a crop with a profile
(RiskDashboard.tsx lines 280-323), in source push order.  Temperature and
humidity default as in the enclosing useMemo (lines 269-270); the drought
check (line 314) tests the raw rain_1h field against 0 with strict
equality, so a missing field or null weather never triggers it. -/
def specificThreats (p : CropRiskProfile) (weather : Option Weather) : List Threat :=
  let temp := effTemperature weather
  let humidity := effHumidity weather
  (if temp < p.optimalTempMin then
    [⟨if temp < p.frostRisk then .frost_damage else .cold_stress,
      if temp < p.frostRisk then .high else .medium⟩]
  else if temp > p.optimalTempMax then
    [⟨if temp > p.heatStress then .heat_stress else .temperature_stress,
      if temp > p.heatStress then .high else .medium⟩]
  else []) ++
  (if humidity > p.pestRiskHumidity then
    [⟨.pest_disease, if humidity > p.pestRiskHumidity + 10 then .high else .medium⟩]
  else []) ++
  (if humidity > p.fungalRiskHumidity ∧ temp > p.fungalRiskTemp then
    [⟨.fungal_disease, .high⟩]
  else []) ++
  (if weather.bind Weather.rain_1h = some 0 ∧ humidity < 40 then
    [⟨.drought_stress,
      if p.droughtTolerance = .very_low then .high
      else if p.droughtTolerance = .low then .medium else .low⟩]
  else [])

/-- The generic fallback threat (RiskDashboard.tsx lines 326-332), whose
tier follows the crop risk score. -/
def fallbackThreat (cropRisk : ℚ) : Threat :=
  ⟨.weather_stress,
    if cropRisk > 60 then .high else if cropRisk > 30 then .medium else .low⟩

/-- The threats list derived for one displayed crop (RiskDashboard.tsx
lines 272-339): the condition-specific threats when the crop has a profile,
the fallback threat when that list is empty, truncated to three. -/
def deriveCropThreats (name : String) (weather : Option Weather) : List Threat :=
  let specific :=
    match cropRiskProfiles.lookup (normalizeCropName name) with
    | some p => specificThreats p weather
    | none => []
  let threats :=
    if specific.length = 0 then [fallbackThreat (calculateCropRisk name weather)]
    else specific
  threats.take 3

/- ===================================================================
   frontend/src/components/Chatbot.tsx
   =================================================================== -/

/-- Whether pat occurs as a contiguous sublist, the char-level content of
JavaScript String.prototype.includes. -/
def listContainsSublist (pat : List Char) : List Char → Bool
  | [] => pat.isEmpty
  | c :: cs => pat.isPrefixOf (c :: cs) || listContainsSublist pat cs

/-- JavaScript String.prototype.includes on strings. -/
def strIncludes (s pat : String) : Bool :=
  listContainsSublist pat.data s.data

/-- String.prototype.toLowerCase, carried out on the character list. -/
def lowerStr (s : String) : String :=
  ⟨s.data.map Char.toLower⟩

/-- generateFallbackResponse (Chatbot.tsx lines 60-81).  The component
returns translated copy text; here each branch returns the translation key
it passes to the translator, which is injective on these keys. -/
def generateFallbackResponse (query : String) : String :=
  let lowerQuery := lowerStr query
  if strIncludes lowerQuery "wheat" then "chatbot.fallback_responses.wheat"
  else if strIncludes lowerQuery "rice" then "chatbot.fallback_responses.rice"
  else if strIncludes lowerQuery "fertilizer" then "chatbot.fallback_responses.fertilizer"
  else if strIncludes lowerQuery "pest" || strIncludes lowerQuery "disease" then
    "chatbot.fallback_responses.pest"
  else "chatbot.fallback_responses.general"

/-- SourceInfo (Chatbot.tsx lines 17-22); the numeric score is modelled as
a rational. -/
structure SourceInfo where
  source : String
  page : Option ℤ
  chunk_id : String
  score : ℚ
deriving DecidableEq

/-- RAGResponse (Chatbot.tsx lines 24-34); the optional node latencies are
not used by the component logic and are omitted. -/
structure RAGResponse where
  answer : String
  sources : List SourceInfo
  retrieved_chunks : List String
  latency_ms : ℚ
deriving DecidableEq

/-- The reply content and source names displayed by sendMessage for a
successful response (Chatbot.tsx lines 137-153): the backend answer and
its mapped sources, replaced by the canned fallback and the generic
fallback source when the answer is empty (falsy) or no chunks were
retrieved. -/
def processRAGResponse (query : String) (data : RAGResponse) : String × List String :=
  if data.answer = "" ∨ data.retrieved_chunks = [] then
    (generateFallbackResponse query, ["chatbot.fallback_source"])
  else
    (data.answer, data.sources.map SourceInfo.source)

/- ===================================================================
   frontend/src/components/DiseaseDetection.tsx
   =================================================================== -/

/-- DetectionResult (DiseaseDetection.tsx lines 11-17). -/
structure DetectionResult where
  disease : String
  probability : ℕ
  description : String
  treatment : List String
  prevention : List String
deriving DecidableEq

/-- mockDetectionResult (DiseaseDetection.tsx lines 19-36). -/
def mockDetectionResult : DetectionResult :=
  { disease := "Late Blight"
    probability := 92
    description := "Late blight is a plant disease caused by the fungus-like oomycete pathogen Phytophthora infestans. It primarily affects potatoes and tomatoes, causing significant crop damage."
    treatment :=
      ["Apply copper-based fungicides as directed",
       "Remove and destroy infected plant parts",
       "Improve air circulation around plants",
       "Use targeted biological controls"]
    prevention :=
      ["Plant resistant varieties",
       "Ensure proper spacing between plants",
       "Avoid overhead irrigation",
       "Practice crop rotation",
       "Keep the garden clean of plant debris"] }

/-- A selected image file: name and raw byte content. -/
structure ImageFile where
  name : String
  content : List ℕ
deriving DecidableEq

/-- The observable outcome of the Analyze action. -/
inductive AnalyzeOutcome
  | toastNoImage
  | analysisComplete (r : DetectionResult)
deriving DecidableEq

/-- handleAnalyze (DiseaseDetection.tsx lines 62-84): with no file a
destructive toast and no result; with any file the timeout resolves to the
fixed mock result. -/
def handleAnalyze (selectedFile : Option ImageFile) : AnalyzeOutcome :=
  match selectedFile with
  | none => .toastNoImage
  | some _ => .analysisComplete mockDetectionResult

/- ===================================================================
   Fertilizer recommendation form (src/unnamed/part_000)
   =================================================================== -/

/-- FertilizerRecommendation (part_000 lines 20-32). -/
structure FertilizerRecommendation where
  name : String
  formula : String
  composition : String
  purpose : String
  bestFor : String
  usageTip : String
  avoid : String
  applicationRate : String
  timing : String
  method : String
  benefits : List String
deriving DecidableEq

/-- SoilNutrient (part_000 lines 12-18); the status union type is kept as
a string. -/
structure SoilNutrient where
  name : String
  value : ℚ
  unit : String
  status : String
  color : String
deriving DecidableEq

/-- mockSoilNutrients (part_000 lines 78-107). -/
def mockSoilNutrients : List SoilNutrient :=
  [⟨"Nitrogen (N)", 25, "kg/ha", "Low", "bg-red-500"⟩,
   ⟨"Phosphorus (P)", 15, "kg/ha", "Medium", "bg-yellow-500"⟩,
   ⟨"Potassium (K)", 180, "kg/ha", "Optimal", "bg-green-500"⟩,
   ⟨"Organic Matter", 1.2, "%", "Low", "bg-red-500"⟩]

/-- cropOptions (part_000 lines 52-64). -/
def cropOptions : List String :=
  ["Maize", "Sugarcane", "Cotton", "Tobacco", "Paddy", "Barley", "Wheat",
   "Millets", "Oil seeds", "Pulses", "Ground Nuts"]

/-- soilOptions (part_000 lines 66-72). -/
def soilOptions : List String :=
  ["Sandy", "Loamy", "Black", "Red", "Clayey"]

/-- fertilizerDatabase (part_000 lines 110-202): the seven known keys with
their full entries. -/
def fertilizerDatabase : List (String × FertilizerRecommendation) :=
  [("Urea",
    { name := "Urea"
      formula := "46-0-0"
      composition := "High nitrogen fertilizer (46% N)"
      purpose := "Promotes vegetative growth, greener leaves, and higher protein synthesis"
      bestFor := "Early crop stages (tillering in rice/wheat), leafy vegetables, and cereals"
      usageTip := "Apply in split doses to reduce nitrogen loss (volatilization)"
      avoid := "Overuse, as it can delay flowering and reduce yield quality"
      applicationRate := "100-150 kg/ha"
      timing := "Split application: 50% at 30 days, 50% at 60 days"
      method := "Side dressing followed by light irrigation"
      benefits := ["High nitrogen for leafy growth", "Cost-effective nitrogen source", "Quickly available to plants"] }),
   ("DAP",
    { name := "DAP (Di-Ammonium Phosphate)"
      formula := "18-46-0"
      composition := "18% Nitrogen, 46% Phosphorus"
      purpose := "Provides strong root development and supports early plant growth"
      bestFor := "Basal application before sowing in all major crops (grains, pulses, oilseeds)"
      usageTip := "Avoid mixing directly with urea; mix only at application time"
      avoid := "Excess use in alkaline soils (can cause phosphorus fixation)"
      applicationRate := "100-125 kg/ha"
      timing := "Apply as basal dose before sowing"
      method := "Band placement or broadcasting followed by incorporation"
      benefits := ["Strong root development", "Early plant establishment", "Improved nutrient uptake"] }),
   ("14-35-14",
    { name := "14-35-14 NPK Complex"
      formula := "14-35-14"
      composition := "14% Nitrogen, 35% Phosphorus, 14% Potassium"
      purpose := "Balanced fertilizer ideal for rooting, flowering, and fruit setting"
      bestFor := "Pulses, oilseeds, and fruit crops requiring balanced nutrient support"
      usageTip := "Use as a basal dose during sowing/transplantation"
      avoid := "Applying in nitrogen-rich soils without testing—can cause imbalance"
      applicationRate := "150-200 kg/ha"
      timing := "Apply at sowing/transplanting"
      method := "Band placement or broadcasting with incorporation"
      benefits := ["Balanced nutrition", "Enhanced flowering", "Better fruit setting"] }),
   ("28-28",
    { name := "28-28 NPK Complex"
      formula := "28-28-0"
      composition := "28% Nitrogen, 28% Phosphorus"
      purpose := "Boosts early vegetative and root development, especially for nutrient-demanding crops"
      bestFor := "Maize, sugarcane, and cereals in medium-fertility soils"
      usageTip := "Apply before irrigation for efficient nutrient absorption"
      avoid := "Repeated use without potassium supplements"
      applicationRate := "125-175 kg/ha"
      timing := "Apply at planting and early growth stages"
      method := "Band placement near root zone"
      benefits := ["Rapid early growth", "Strong root system", "Enhanced nutrient uptake"] }),
   ("17-17-17",
    { name := "17-17-17 NPK Complex"
      formula := "17-17-17"
      composition := "17% Nitrogen, 17% Phosphorus, 17% Potassium"
      purpose := "A general-purpose balanced fertilizer supporting all stages of crop growth"
      bestFor := "Vegetables, fruit crops, and multi-nutrient demanding cereals"
      usageTip := "Ideal as a top dressing in mid-growth stages"
      avoid := "Applying on high potassium soils — leads to nutrient lockout"
      applicationRate := "200-250 kg/ha"
      timing := "Apply at planting and as top dressing"
      method := "Broadcasting or side dressing"
      benefits := ["Complete nutrition", "Supports all growth stages", "Versatile application"] }),
   ("20-20",
    { name := "20-20 NPK Complex"
      formula := "20-20-0"
      composition := "20% Nitrogen, 20% Phosphorus"
      purpose := "Stimulates root development and chlorophyll formation"
      bestFor := "Oilseeds, pulses, and cereals during active growth"
      usageTip := "Combine with potash (MOP) if soil test shows low K levels"
      avoid := "Continuous use without organic matter—can reduce soil health"
      applicationRate := "150-200 kg/ha"
      timing := "Apply during active growth period"
      method := "Band placement or broadcasting"
      benefits := ["Enhanced chlorophyll", "Strong root development", "Improved photosynthesis"] }),
   ("10-26-26",
    { name := "10-26-26 NPK Complex"
      formula := "10-26-26"
      composition := "10% Nitrogen, 26% Phosphorus, 26% Potassium"
      purpose := "Encourages root establishment, flowering, and fruit formation"
      bestFor := "Fruit crops, flowering plants, and vegetables like tomato and chili"
      usageTip := "Apply at flowering/fruiting stage for best results"
      avoid := "Applying in excess during vegetative stage—it may slow leaf growth"
      applicationRate := "100-150 kg/ha"
      timing := "Apply at flowering and fruiting stages"
      method := "Side dressing around plant base"
      benefits := ["Enhanced flowering", "Better fruit quality", "Improved yield"] })]

/-- The default placeholder entry built when the predicted name is not in
the database (part_000 lines 240-252), carrying the predicted name. -/
def defaultFertilizerInfo (fertilizerName : String) : FertilizerRecommendation :=
  { name := fertilizerName
    formula := "—"
    composition := "Composition details not available"
    purpose := "General purpose fertilizer"
    bestFor := "Various crops as per agronomist guidance"
    usageTip := "Follow package instructions and soil test recommendations"
    avoid := "Overuse without proper soil testing"
    applicationRate := "As per package and agronomist guidance"
    timing := "Follow crop stage-specific schedule"
    method := "Broadcast/Banding per label"
    benefits := ["Backed by ML model", "Tailored to entered field conditions"] }

/-- The component state touched by generateRecommendations (part_000 lines
37-50): the nine form inputs (numeric inputs are controlled text inputs,
so they are strings) and the result state. -/
structure FertilizerFormState where
  cropType : String
  soilType : String
  growthStage : String
  temperature : String
  humidity : String
  moisture : String
  nitrogen : String
  phosphorous : String
  potassium : String
  recommendations : List FertilizerRecommendation
  soilNutrients : List SoilNutrient
  isGenerating : Bool
deriving DecidableEq

/-- First index of v, or none. -/
def findIdxAux (v : String) : List String → Option ℕ
  | [] => none
  | x :: xs => if x = v then some 0 else (findIdxAux v xs).map (· + 1)

/-- JavaScript Array.prototype.indexOf: the first index of v, or minus one
when v does not occur. -/
def jsIndexOf (l : List String) (v : String) : ℤ :=
  match findIdxAux v l with
  | some i => (i : ℤ)
  | none => -1

/-- The request body built by generateRecommendations (part_000 lines
210-219).  The numeric fields are parseFloat of the raw input strings;
since no claim concerns the parsed values, the raw strings are kept and
the float parsing at the boundary is not modelled. -/
structure FertilizerPayload where
  Temperature : String
  Humidity : String
  Moisture : String
  SoilType : ℤ
  CropType : ℤ
  Nitrogen : String
  Phosphorous : String
  Potassium : String
deriving DecidableEq

/-- part_000 lines 210-219. -/
def buildPayload (s : FertilizerFormState) : FertilizerPayload :=
  { Temperature := s.temperature
    Humidity := s.humidity
    Moisture := s.moisture
    SoilType := max 0 (jsIndexOf soilOptions s.soilType)
    CropType := max 0 (jsIndexOf cropOptions s.cropType)
    Nitrogen := s.nitrogen
    Phosphorous := s.phosphorous
    Potassium := s.potassium }

/-- The synchronous phase of generateRecommendations before the fetch
(part_000 lines 204-221): when any of the nine inputs is the empty string
(falsy) it shows the missing-information toast and returns with the state
untouched and no request; otherwise it sets isGenerating and issues the
request payload.  The first component is the request sent, if any. -/
def generateRecommendationsPre (s : FertilizerFormState) :
    Option FertilizerPayload × FertilizerFormState :=
  if s.cropType = "" ∨ s.soilType = "" ∨ s.growthStage = "" ∨ s.temperature = "" ∨
      s.humidity = "" ∨ s.moisture = "" ∨ s.nitrogen = "" ∨ s.phosphorous = "" ∨
      s.potassium = "" then
    (none, s)
  else
    (some (buildPayload s), { s with isGenerating := true })

/-- The state update applied after a successful prediction response
(part_000 lines 237-258): soilNutrients becomes the fixed mock list, the
recommendations become the single looked-up or default entry, and
isGenerating is cleared.  The recommended_fertilizer field is optional in
the response; the JavaScript or-default also maps a present empty string
to the name Unknown. -/
def applyPredictionSuccess (s : FertilizerFormState)
    (recommended_fertilizer : Option String) : FertilizerFormState :=
  let fertilizerName :=
    match recommended_fertilizer with
    | none => "Unknown"
    | some v => if v = "" then "Unknown" else v
  let fertilizerInfo :=
    (fertilizerDatabase.lookup fertilizerName).getD (defaultFertilizerInfo fertilizerName)
  { s with soilNutrients := mockSoilNutrients
           recommendations := [fertilizerInfo]
           isGenerating := false }

/- ===================================================================
   RAG pipeline graph (backend docs, src/unnamed/part_005)
   =================================================================== -/

/-- The nodes of the LangGraph RAG pipeline as documented in the backend
project summary (part_005 lines 46-83). -/
inductive RAGNode
  | START
  | EmbedNode
  | RetrieveNode
  | GenerateNode
  | END
deriving DecidableEq

/-- Modelled from the spec: the pipeline implementation
backend/services/langgraph_pipeline.py is not among the sources under
review, only its documentation; per the spec the pipeline is a three-step
linear call sequence embed, then vector-search, then LLM-generate, with no
conditional branching.  Each node therefore has exactly one successor (none
after END). -/
def ragSucc : RAGNode → Option RAGNode
  | .START => some .EmbedNode
  | .EmbedNode => some .RetrieveNode
  | .RetrieveNode => some .GenerateNode
  | .GenerateNode => some .END
  | .END => none

/-- A complete pipeline execution: a node sequence following ragSucc from
START to END. -/
def IsPipelineRun (p : List RAGNode) : Prop :=
  List.Chain' (fun a b => ragSucc a = some b) p ∧
    p.head? = some RAGNode.START ∧ p.getLast? = some RAGNode.END

/- ===================================================================
   Theorems
   =================================================================== -/

/-- The source conditional for heat in the generic branch equals twice the
positive part of the excess over 32. -/
theorem ite_heat_eq_two_mul_max (t : ℚ) :
    (if t > 32 then (t - 32) * 2 else 0) = 2 * max 0 (t - 32) := by
  rcases le_or_lt t 32 with h | h
  · rw [if_neg (not_lt.mpr h), max_eq_left (sub_nonpos.mpr h), mul_zero]
  · rw [if_pos h, max_eq_right (sub_nonneg.mpr h.le)]
    ring

/-- C1: every complete run of the RAG pipeline graph is the single linear
path START, embed, retrieve, generate, END; each step occurs exactly once
and no other path from START to END exists. -/
theorem rag_pipeline_unique_path (p : List RAGNode) (h : IsPipelineRun p) :
    p = [RAGNode.START, RAGNode.EmbedNode, RAGNode.RetrieveNode,
      RAGNode.GenerateNode, RAGNode.END] := by
  obtain ⟨hchain, hhead, hlast⟩ := h
  rcases p with _ | ⟨a, l⟩
  · simp at hhead
  · simp only [List.head?, Option.some.injEq] at hhead
    subst hhead
    rcases l with _ | ⟨b, l⟩
    · simp [List.getLast?] at hlast
    · obtain ⟨hab, hchain⟩ := List.chain'_cons.mp hchain
      simp only [ragSucc, Option.some.injEq] at hab
      subst hab
      rcases l with _ | ⟨c, l⟩
      · simp [List.getLast?] at hlast
      · obtain ⟨hbc, hchain⟩ := List.chain'_cons.mp hchain
        simp only [ragSucc, Option.some.injEq] at hbc
        subst hbc
        rcases l with _ | ⟨d, l⟩
        · simp [List.getLast?] at hlast
        · obtain ⟨hcd, hchain⟩ := List.chain'_cons.mp hchain
          simp only [ragSucc, Option.some.injEq] at hcd
          subst hcd
          rcases l with _ | ⟨e, l⟩
          · simp [List.getLast?] at hlast
          · obtain ⟨hde, hchain⟩ := List.chain'_cons.mp hchain
            simp only [ragSucc, Option.some.injEq] at hde
            subst hde
            rcases l with _ | ⟨f, l⟩
            · rfl
            · obtain ⟨hef, _⟩ := List.chain'_cons.mp hchain
              simp [ragSucc] at hef

/-- Witness for C1: the canonical five-node sequence is a pipeline run and
the theorem maps it to itself. -/
theorem rag_pipeline_unique_path_witness :
    IsPipelineRun [RAGNode.START, RAGNode.EmbedNode, RAGNode.RetrieveNode,
        RAGNode.GenerateNode, RAGNode.END] ∧
      [RAGNode.START, RAGNode.EmbedNode, RAGNode.RetrieveNode,
        RAGNode.GenerateNode, RAGNode.END] =
      [RAGNode.START, RAGNode.EmbedNode, RAGNode.RetrieveNode,
        RAGNode.GenerateNode, RAGNode.END] := by
  have hrun : IsPipelineRun [RAGNode.START, RAGNode.EmbedNode, RAGNode.RetrieveNode,
      RAGNode.GenerateNode, RAGNode.END] := by
    refine ⟨?_, rfl, rfl⟩
    simp [List.chain'_cons, ragSucc]
  exact ⟨hrun, rag_pipeline_unique_path _ hrun⟩

/-- C2: for a crop whose normalized name has a profile, calculateCropRisk
is the clamped rounding of the profile risk score built from the own
thresholds of that crop; for a crop without a profile it is the generic formula
min 100, max 0, humidity minus 40 plus twice the positive part of temp
minus 32 plus 20 when rain exceeds 5. -/
theorem calculateCropRisk_profile_or_generic (cropName : String) (w : Option Weather) :
    (∀ p, cropRiskProfiles.lookup (normalizeCropName cropName) = some p →
        calculateCropRisk cropName w =
          ((min 100 (max 0 (jsRound (profileRiskScore p (effTemperature w) (effHumidity w)
            (effRain w)))) : ℤ) : ℚ)) ∧
      (cropRiskProfiles.lookup (normalizeCropName cropName) = none →
        calculateCropRisk cropName w =
          specGenericRisk (effTemperature w) (effHumidity w) (effRain w)) := by
  constructor
  · intro p hp
    simp [calculateCropRisk, hp]
  · intro hp
    simp only [calculateCropRisk, hp, genericRisk, specGenericRisk, ite_heat_eq_two_mul_max]

/-- Witness for C2: a profiled crop (rice, via normalization of a
parenthesized display name) and an unprofiled crop evaluated concretely. -/
theorem calculateCropRisk_profile_or_generic_witness :
    calculateCropRisk "Rice (Paddy)" none = 3 ∧ calculateCropRisk "Banana" none = 20 := by
  constructor
  · have h := (calculateCropRisk_profile_or_generic "Rice (Paddy)" none).1 riceProfile rfl
    rw [h]
    norm_num [profileRiskScore, tempStressRisk, humidityStressRisk, pestDiseaseRisk,
      fungalDiseaseRisk, droughtRisk, heavyRainRisk, jsRound, effTemperature, effHumidity,
      effRain, riceProfile, droughtMultiplier, min_def, max_def]
  · have h := (calculateCropRisk_profile_or_generic "Banana" none).2 rfl
    rw [h]
    norm_num [specGenericRisk, effTemperature, effHumidity, effRain, min_def, max_def]

/-- C3: calculateCropRisk is a total function of the possibly-null weather
object; a missing temperature behaves as 25, a missing humidity as 60 and
a missing rainfall as 0, and nothing else of the weather is consulted. -/
theorem calculateCropRisk_default_fallbacks (cropName : String) (w : Option Weather) :
    calculateCropRisk cropName w =
      calculateCropRisk cropName (some
        { temperature := some ((w.bind Weather.temperature).getD 25)
          humidity := some ((w.bind Weather.humidity).getD 60)
          wind_speed := none
          rain_1h := some ((w.bind Weather.rain_1h).getD 0) }) := by
  simp [calculateCropRisk, effTemperature, effHumidity, effRain]

/-- C8: the risk value always lies between 0 and 100, and for a profiled
crop it is an integer. -/
theorem calculateCropRisk_range (cropName : String) (w : Option Weather) :
    0 ≤ calculateCropRisk cropName w ∧ calculateCropRisk cropName w ≤ 100 ∧
      (∀ p, cropRiskProfiles.lookup (normalizeCropName cropName) = some p →
        ∃ z : ℤ, calculateCropRisk cropName w = (z : ℚ)) := by
  rcases hl : cropRiskProfiles.lookup (normalizeCropName cropName) with _ | p
  · refine ⟨?_, ?_, ?_⟩
    · simp only [calculateCropRisk, hl, genericRisk]
      exact le_min (by norm_num) (le_max_left 0 _)
    · simp only [calculateCropRisk, hl, genericRisk]
      exact min_le_left _ _
    · intro p hp
      cases hp
  · refine ⟨?_, ?_, ?_⟩
    · simp only [calculateCropRisk, hl]
      have : (0 : ℤ) ≤ min 100 (max 0 (jsRound (profileRiskScore p (effTemperature w)
          (effHumidity w) (effRain w)))) :=
        le_min (by norm_num) (le_max_left 0 _)
      exact_mod_cast this
    · simp only [calculateCropRisk, hl]
      have : min 100 (max 0 (jsRound (profileRiskScore p (effTemperature w)
          (effHumidity w) (effRain w)))) ≤ (100 : ℤ) := min_le_left _ _
      exact_mod_cast this
    · intro p2 hp
      refine ⟨min 100 (max 0 (jsRound (profileRiskScore p (effTemperature w)
        (effHumidity w) (effRain w)))), ?_⟩
      simp only [calculateCropRisk, hl]

/-- Witness for C8: the integrality clause applied to wheat. -/
theorem calculateCropRisk_range_witness :
    ∃ z : ℤ, calculateCropRisk "Wheat" none = (z : ℚ) :=
  (calculateCropRisk_range "Wheat" none).2.2 wheatProfile rfl

/-- A nonempty list truncated to three elements has between one and three
elements. -/
theorem take_three_length_bounds {α : Type} (l : List α) (h : l ≠ []) :
    1 ≤ (l.take 3).length ∧ (l.take 3).length ≤ 3 := by
  rw [List.length_take]
  exact ⟨le_min (by norm_num) (List.length_pos.mpr h), min_le_left _ _⟩

/-- C10: every displayed crop carries between one and three threats; the
condition-specific threats are truncated to the first three, and when none
applies the single generic weather-stress threat appears, its tier high
above risk 60, medium above 30, low otherwise. -/
theorem deriveCropThreats_spec (cropName : String) (w : Option Weather) :
    (1 ≤ (deriveCropThreats cropName w).length ∧ (deriveCropThreats cropName w).length ≤ 3) ∧
      (∀ p, cropRiskProfiles.lookup (normalizeCropName cropName) = some p →
        (specificThreats p w ≠ [] →
          deriveCropThreats cropName w = (specificThreats p w).take 3) ∧
        (specificThreats p w = [] →
          deriveCropThreats cropName w =
            [⟨.weather_stress,
              if calculateCropRisk cropName w > 60 then .high
              else if calculateCropRisk cropName w > 30 then .medium else .low⟩])) ∧
      (cropRiskProfiles.lookup (normalizeCropName cropName) = none →
        deriveCropThreats cropName w =
          [⟨.weather_stress,
            if calculateCropRisk cropName w > 60 then .high
            else if calculateCropRisk cropName w > 30 then .medium else .low⟩]) := by
  rcases hl : cropRiskProfiles.lookup (normalizeCropName cropName) with _ | p
  · refine ⟨?_, ?_, ?_⟩
    · simp [deriveCropThreats, hl, fallbackThreat]
    · intro p hp
      cases hp
    · intro _
      simp [deriveCropThreats, hl, fallbackThreat]
  · refine ⟨?_, ?_, ?_⟩
    · by_cases hs : specificThreats p w = []
      · simp [deriveCropThreats, hl, hs, fallbackThreat]
      · have hb := take_three_length_bounds (specificThreats p w) hs
        simpa [deriveCropThreats, hl, List.length_eq_zero, hs] using hb
    · intro p2 hp2
      injection hp2 with hp2
      subst hp2
      constructor
      · intro hs
        simp [deriveCropThreats, hl, List.length_eq_zero, hs]
      · intro hs
        simp [deriveCropThreats, hl, hs, fallbackThreat]
    · intro hnone
      cases hnone

/-- Witness for C10: a crop without a profile gets the generic low-tier
threat; wheat in hot humid rainy weather gets its three specific threats. -/
theorem deriveCropThreats_spec_witness :
    deriveCropThreats "Banana" none = [⟨.weather_stress, .low⟩] ∧
      deriveCropThreats "Wheat" (some ⟨some 30, some 82, none, some 12⟩) =
        [⟨.temperature_stress, .medium⟩, ⟨.pest_disease, .medium⟩,
          ⟨.fungal_disease, .high⟩] := by
  constructor
  · have h := (deriveCropThreats_spec "Banana" none).2.2 rfl
    rw [h]
    have h0 : cropRiskProfiles.lookup (normalizeCropName "Banana") = none := rfl
    have hr : calculateCropRisk "Banana" none = 20 := by
      simp only [calculateCropRisk, h0]
      norm_num [genericRisk, effTemperature, effHumidity, effRain, min_def, max_def]
    rw [hr]
    norm_num
  · have hsp : specificThreats wheatProfile (some ⟨some 30, some 82, none, some 12⟩) =
        [⟨.temperature_stress, .medium⟩, ⟨.pest_disease, .medium⟩,
          ⟨.fungal_disease, .high⟩] := by
      norm_num [specificThreats, effTemperature, effHumidity, wheatProfile]
    have h := ((deriveCropThreats_spec "Wheat"
        (some ⟨some 30, some 82, none, some 12⟩)).2.1 wheatProfile rfl).1
      (by rw [hsp]; simp)
    rw [h, hsp]
    rfl

/-- C4: an empty answer or an empty retrieved-chunks list replaces the
reply with the canned fallback keyed on the lowercased query, wheat first,
then rice, fertilizer, pest or disease, else the general text, with the
single generic fallback source; otherwise the backend answer and its
sources are shown unchanged. -/
theorem chatbot_fallback_spec (q : String) (data : RAGResponse) :
    (data.answer = "" ∨ data.retrieved_chunks = [] →
        processRAGResponse q data =
          (generateFallbackResponse q, ["chatbot.fallback_source"])) ∧
      (data.answer ≠ "" → data.retrieved_chunks ≠ [] →
        processRAGResponse q data = (data.answer, data.sources.map SourceInfo.source)) ∧
      (strIncludes (lowerStr q) "wheat" = true →
        generateFallbackResponse q = "chatbot.fallback_responses.wheat") ∧
      (strIncludes (lowerStr q) "wheat" = false →
        strIncludes (lowerStr q) "rice" = true →
        generateFallbackResponse q = "chatbot.fallback_responses.rice") ∧
      (strIncludes (lowerStr q) "wheat" = false →
        strIncludes (lowerStr q) "rice" = false →
        strIncludes (lowerStr q) "fertilizer" = true →
        generateFallbackResponse q = "chatbot.fallback_responses.fertilizer") ∧
      (strIncludes (lowerStr q) "wheat" = false →
        strIncludes (lowerStr q) "rice" = false →
        strIncludes (lowerStr q) "fertilizer" = false →
        (strIncludes (lowerStr q) "pest" = true ∨ strIncludes (lowerStr q) "disease" = true) →
        generateFallbackResponse q = "chatbot.fallback_responses.pest") ∧
      (strIncludes (lowerStr q) "wheat" = false →
        strIncludes (lowerStr q) "rice" = false →
        strIncludes (lowerStr q) "fertilizer" = false →
        strIncludes (lowerStr q) "pest" = false →
        strIncludes (lowerStr q) "disease" = false →
        generateFallbackResponse q = "chatbot.fallback_responses.general") := by
  refine ⟨?_, ?_, ?_, ?_, ?_, ?_, ?_⟩
  · intro h
    rcases h with h | h <;> simp [processRAGResponse, h]
  · intro h1 h2
    simp [processRAGResponse, h1, h2]
  · intro h
    simp [generateFallbackResponse, h]
  · intro h1 h2
    simp [generateFallbackResponse, h1, h2]
  · intro h1 h2 h3
    simp [generateFallbackResponse, h1, h2, h3]
  · intro h1 h2 h3 h4
    rcases h4 with h4 | h4 <;> simp [generateFallbackResponse, h1, h2, h3, h4]
  · intro h1 h2 h3 h4 h5
    simp [generateFallbackResponse, h1, h2, h3, h4, h5]

/-- Witness for C4: a query mentioning both fertilizer and wheat falls
back to the wheat text, showing wheat is checked first. -/
theorem chatbot_fallback_spec_witness :
    processRAGResponse "Best Fertilizer for WHEAT?" ⟨"", [], [], 0⟩ =
      ("chatbot.fallback_responses.wheat", ["chatbot.fallback_source"]) := by
  have h := (chatbot_fallback_spec "Best Fertilizer for WHEAT?" ⟨"", [], [], 0⟩).1 (Or.inl rfl)
  rw [h]
  have hw := (chatbot_fallback_spec "Best Fertilizer for WHEAT?"
    ⟨"", [], [], 0⟩).2.2.1 (by decide)
  rw [hw]

/-- C5: the Analyze action yields the fixed mock result, Late Blight at 92,
for every selected image regardless of content, and with no file selected
it produces the destructive toast and no result. -/
theorem disease_detection_mock_spec :
    (∀ f : ImageFile, handleAnalyze (some f) = .analysisComplete mockDetectionResult) ∧
      handleAnalyze none = .toastNoImage ∧
      mockDetectionResult.disease = "Late Blight" ∧
      mockDetectionResult.probability = 92 ∧
      (∀ f g : ImageFile, handleAnalyze (some f) = handleAnalyze (some g)) :=
  ⟨fun _ => rfl, rfl, rfl, rfl, fun _ _ => rfl⟩

/-- C6: the fertilizer form builds a request only when all nine inputs are
non-empty; with any input empty it shows the missing-information toast and
returns with the whole state, in particular recommendations, soilNutrients
and isGenerating, unchanged. -/
theorem fertilizer_guard_spec (s : FertilizerFormState) :
    (s.cropType = "" ∨ s.soilType = "" ∨ s.growthStage = "" ∨ s.temperature = "" ∨
        s.humidity = "" ∨ s.moisture = "" ∨ s.nitrogen = "" ∨ s.phosphorous = "" ∨
        s.potassium = "" →
      (generateRecommendationsPre s).1 = none ∧ (generateRecommendationsPre s).2 = s) ∧
      ((generateRecommendationsPre s).1 ≠ none →
        s.cropType ≠ "" ∧ s.soilType ≠ "" ∧ s.growthStage ≠ "" ∧ s.temperature ≠ "" ∧
          s.humidity ≠ "" ∧ s.moisture ≠ "" ∧ s.nitrogen ≠ "" ∧ s.phosphorous ≠ "" ∧
          s.potassium ≠ "") ∧
      (s.cropType ≠ "" → s.soilType ≠ "" → s.growthStage ≠ "" → s.temperature ≠ "" →
        s.humidity ≠ "" → s.moisture ≠ "" → s.nitrogen ≠ "" → s.phosphorous ≠ "" →
        s.potassium ≠ "" →
        (generateRecommendationsPre s).1 = some (buildPayload s)) := by
  by_cases h : s.cropType = "" ∨ s.soilType = "" ∨ s.growthStage = "" ∨ s.temperature = "" ∨
      s.humidity = "" ∨ s.moisture = "" ∨ s.nitrogen = "" ∨ s.phosphorous = "" ∨
      s.potassium = ""
  · refine ⟨fun _ => ?_, fun hsome => ?_, ?_⟩
    · unfold generateRecommendationsPre
      rw [if_pos h]
      exact ⟨rfl, rfl⟩
    · exfalso
      apply hsome
      unfold generateRecommendationsPre
      rw [if_pos h]
    · intro h1 h2 h3 h4 h5 h6 h7 h8 h9
      exfalso
      tauto
  · refine ⟨fun hc => absurd hc h, fun _ => ?_, fun _ _ _ _ _ _ _ _ _ => ?_⟩
    · push_neg at h
      exact h
    · unfold generateRecommendationsPre
      rw [if_neg h]

/-- Witness for C6: an empty crop type blocks the request and leaves the
state alone; a fully filled form issues the payload. -/
theorem fertilizer_guard_spec_witness :
    ((generateRecommendationsPre ⟨"", "Sandy", "Seedling", "28", "65", "40", "90", "42", "37",
        [], [], false⟩).1 = none ∧
      (generateRecommendationsPre ⟨"", "Sandy", "Seedling", "28", "65", "40", "90", "42", "37",
        [], [], false⟩).2 = ⟨"", "Sandy", "Seedling", "28", "65", "40", "90", "42", "37",
        [], [], false⟩) ∧
      (generateRecommendationsPre ⟨"Maize", "Sandy", "Seedling", "28", "65", "40", "90", "42",
        "37", [], [], false⟩).1 = some (buildPayload ⟨"Maize", "Sandy", "Seedling", "28", "65",
        "40", "90", "42", "37", [], [], false⟩) :=
  ⟨(fertilizer_guard_spec _).1 (Or.inl rfl),
   (fertilizer_guard_spec _).2.2 (by decide) (by decide) (by decide) (by decide) (by decide)
     (by decide) (by decide) (by decide) (by decide)⟩

/-- Counterexample to C7 as stated: when the backend returns a present but
empty recommended_fertilizer name, the placeholder does not carry the
returned name (the empty string); the falsy-coalescing maps it to the name
Unknown instead. -/
theorem fertilizer_empty_name_counterexample :
    ¬ ((applyPredictionSuccess ⟨"", "", "", "", "", "", "", "", "", [], [], false⟩
        (some "")).recommendations = [defaultFertilizerInfo ""]) := by
  intro h
  have hval : (applyPredictionSuccess ⟨"", "", "", "", "", "", "", "", "", [], [], false⟩
      (some "")).recommendations = [defaultFertilizerInfo "Unknown"] := rfl
  rw [hval] at h
  injection h with h1 _
  have h2 : ("Unknown" : String) = "" := congrArg FertilizerRecommendation.name h1
  exact absurd h2 (by decide)

/-- C7 amended: after every successful prediction exactly one
recommendation is shown, the database entry matching the returned name
when it is one of the seven known keys, otherwise the default placeholder
carrying the returned name, or the name Unknown when the field is absent
or empty; soilNutrients becomes the fixed four-entry mock list. -/
theorem fertilizer_prediction_success_spec (s : FertilizerFormState)
    (resp : Option String) :
    ((applyPredictionSuccess s resp).recommendations.length = 1) ∧
      ((applyPredictionSuccess s resp).soilNutrients = mockSoilNutrients ∧
        mockSoilNutrients.length = 4) ∧
      (∀ n r, resp = some n → fertilizerDatabase.lookup n = some r →
        (applyPredictionSuccess s resp).recommendations = [r]) ∧
      (∀ n, resp = some n → n ≠ "" → fertilizerDatabase.lookup n = none →
        (applyPredictionSuccess s resp).recommendations = [defaultFertilizerInfo n]) ∧
      (resp = none ∨ resp = some "" →
        (applyPredictionSuccess s resp).recommendations =
          [defaultFertilizerInfo "Unknown"]) := by
  refine ⟨?_, ⟨?_, rfl⟩, ?_, ?_, ?_⟩
  · cases resp <;> rfl
  · cases resp <;> rfl
  · intro n r hn hr
    subst hn
    by_cases hv : n = ""
    · subst hv
      rw [show fertilizerDatabase.lookup "" = none from rfl] at hr
      cases hr
    · simp [applyPredictionSuccess, hv, hr]
  · intro n hn hv hl
    subst hn
    simp [applyPredictionSuccess, hv, hl]
  · rintro (rfl | rfl)
    · simp [applyPredictionSuccess, show fertilizerDatabase.lookup "Unknown" = none from rfl]
    · simp [applyPredictionSuccess, show fertilizerDatabase.lookup "Unknown" = none from rfl]

/-- Witness for C7: an absent field yields the Unknown placeholder; an
unknown non-empty name yields the placeholder carrying that name. -/
theorem fertilizer_prediction_success_spec_witness :
    (applyPredictionSuccess ⟨"", "", "", "", "", "", "", "", "", [], [], false⟩
        none).recommendations = [defaultFertilizerInfo "Unknown"] ∧
      (applyPredictionSuccess ⟨"", "", "", "", "", "", "", "", "", [], [], false⟩
        (some "Compost")).recommendations = [defaultFertilizerInfo "Compost"] :=
  ⟨(fertilizer_prediction_success_spec _ none).2.2.2.2 (Or.inl rfl),
   (fertilizer_prediction_success_spec _ (some "Compost")).2.2.2.1 "Compost" rfl
     (by decide) rfl⟩

/-- v does not occur, so the scan finds nothing. -/
theorem findIdxAux_eq_none {v : String} {l : List String} (h : v ∉ l) :
    findIdxAux v l = none := by
  induction l with
  | nil => rfl
  | cons x xs ih =>
    have hxv : ¬(x = v) := fun hxv => h (by rw [← hxv]; exact List.mem_cons_self x xs)
    have hvxs : v ∉ xs := fun hm => h (List.mem_cons_of_mem x hm)
    rw [findIdxAux, if_neg hxv, ih hvxs]
    rfl

/-- C9: the payload encodes SoilType and CropType as the clamped first
index of the selected value in the fixed option lists; a member is encoded
by its index (which points back at it), a non-member yields index minus
one, silently clamped to 0, the code of the first option, Sandy for soil
and Maize for crop. -/
theorem fertilizer_payload_encoding (s : FertilizerFormState) :
    ((buildPayload s).SoilType = max 0 (jsIndexOf soilOptions s.soilType) ∧
      (buildPayload s).CropType = max 0 (jsIndexOf cropOptions s.cropType)) ∧
      (∀ v, v ∈ soilOptions →
        0 ≤ jsIndexOf soilOptions v ∧
          soilOptions.get? (jsIndexOf soilOptions v).toNat = some v ∧
          max 0 (jsIndexOf soilOptions v) = jsIndexOf soilOptions v) ∧
      (∀ v, v ∈ cropOptions →
        0 ≤ jsIndexOf cropOptions v ∧
          cropOptions.get? (jsIndexOf cropOptions v).toNat = some v ∧
          max 0 (jsIndexOf cropOptions v) = jsIndexOf cropOptions v) ∧
      (∀ v, v ∉ soilOptions →
        jsIndexOf soilOptions v = -1 ∧ max 0 (jsIndexOf soilOptions v) = 0) ∧
      (∀ v, v ∉ cropOptions →
        jsIndexOf cropOptions v = -1 ∧ max 0 (jsIndexOf cropOptions v) = 0) ∧
      (max 0 (jsIndexOf soilOptions "Sandy") = 0 ∧
        max 0 (jsIndexOf cropOptions "Maize") = 0) := by
  refine ⟨⟨rfl, rfl⟩, ?_, ?_, ?_, ?_, by decide⟩
  · intro v hv
    simp only [soilOptions, List.mem_cons, List.not_mem_nil, or_false] at hv
    rcases hv with rfl | rfl | rfl | rfl | rfl <;> decide
  · intro v hv
    simp only [cropOptions, List.mem_cons, List.not_mem_nil, or_false] at hv
    rcases hv with rfl | rfl | rfl | rfl | rfl | rfl | rfl | rfl | rfl | rfl | rfl <;> decide
  · intro v hv
    rw [jsIndexOf, findIdxAux_eq_none hv]
    exact ⟨rfl, rfl⟩
  · intro v hv
    rw [jsIndexOf, findIdxAux_eq_none hv]
    exact ⟨rfl, rfl⟩

/-- Witness for C9: a soil value outside the list is encoded 0, like the
first option; Clayey is encoded by its own index. -/
theorem fertilizer_payload_encoding_witness :
    (jsIndexOf soilOptions "Silt" = -1 ∧ max 0 (jsIndexOf soilOptions "Silt") = 0) ∧
      (0 ≤ jsIndexOf soilOptions "Clayey" ∧
        soilOptions.get? (jsIndexOf soilOptions "Clayey").toNat = some "Clayey" ∧
        max 0 (jsIndexOf soilOptions "Clayey") = jsIndexOf soilOptions "Clayey") :=
  ⟨(fertilizer_payload_encoding ⟨"", "", "", "", "", "", "", "", "", [], [],
      false⟩).2.2.2.1 "Silt" (by decide),
   (fertilizer_payload_encoding ⟨"", "", "", "", "", "", "", "", "", [], [],
      false⟩).2.1 "Clayey" (by decide)⟩
